import Mathlib

/-!
# Verification of the signed-video-framework against its specification

Shallow embedding of the parts of the repository the claims are about:

* the Axis Communications vendor module
  (`src/lib/vendors/axis-communications/sv_vendor_axis_communications.c`):
  the vendor handle, `encode_axis_communications_handle`,
  `decode_axis_communications_handle` and
  `sv_vendor_axis_communications_set_attestation_report`;
* the TLV `write_byte` helper and the emulation-prevention byte discipline
  (the helper itself is not in the sources; it is modelled from the spec);
* the GOP validation pipeline (signer + validator), modelled from the spec,
  since only its tests (`src/tests/check/check_h26xsigned_auth.c`) and its
  internal header (`src/lib/src/signed_video_h26x_internal.h`) are among the
  sources.

Bytes are modelled as natural numbers (with explicit `% 256` / `% 65536`
where the C narrows to `uint8_t` / `uint16_t`), C strings as lists of
NUL-free bytes without the terminator, nullable pointers as `Option`, and
heap allocation as an explicit success/failure oracle.
-/

namespace SignedVideo

/-- Return codes of the public API (`SignedVideoReturnCode` in
`signed_video_common.h`). -/
inductive SignedVideoReturnCode
  | SV_OK
  | SV_INVALID_PARAMETER
  | SV_NOT_SUPPORTED
  | SV_MEMORY
  | SV_INCOMPATIBLE_VERSION
  | SV_DECODING_ERROR
  | SV_UNKNOWN
deriving DecidableEq, Repr

/-- Internal return codes (`svi_rc` in `signed_video_defines.h`). -/
inductive svi_rc
  | SVI_OK
  | SVI_MEMORY
  | SVI_INVALID_PARAMETER
  | SVI_INCOMPATIBLE_VERSION
  | SVI_DECODING_ERROR
  | SVI_UNKNOWN
deriving DecidableEq, Repr

open SignedVideoReturnCode svi_rc

/-- The Axis vendor handle (`sv_vendor_axis_communications_t`).
`attestation` is a byte buffer (`none` models a NULL pointer),
`attestation_size` its declared size, `certificate_chain` a NUL-terminated
C string modelled as its list of bytes without the terminating NUL. -/
structure sv_vendor_axis_communications_t where
  attestation : Option (List Nat)
  attestation_size : Nat
  certificate_chain : Option (List Nat)
deriving DecidableEq, Repr

/-- `sv_vendor_axis_communications_setup`: `calloc` zero-initialises every
field, so the fresh handle has NULL pointers and size 0. -/
def sv_vendor_axis_communications_setup : sv_vendor_axis_communications_t :=
  { attestation := none, attestation_size := 0, certificate_chain := none }

/-- Modelled from the spec: the TLV codec's `write_byte` helper (not among
the sources) "enforces emulation-prevention on the wire during encoding
(tracking the last two bytes)"; an emulation-prevention byte `0x03` is
inserted after `0x0000`, i.e. when the last two emitted bytes are both zero
and the next byte is one of the H.26x start-code bytes `0x00`–`0x03`.
`last_two_bytes` is the `uint16_t` tracking state; the result is the new
state together with the emitted bytes (the inserted `0x03`, when any,
followed by `curr_byte` truncated to a `uint8_t`). -/
def write_byte (last_two_bytes : Nat) (curr_byte : Nat)
    (do_emulation_prevention : Bool) : Nat × List Nat :=
  if do_emulation_prevention ∧ curr_byte % 256 < 4 ∧ last_two_bytes = 0 then
    ((3 * 256 + curr_byte % 256) % 65536, [3, curr_byte % 256])
  else
    ((last_two_bytes * 256 + curr_byte % 256) % 65536, [curr_byte % 256])

/-- Modelled from the spec: `write_byte_many` iterates `write_byte` over a
buffer. -/
def write_byte_many (last_two_bytes : Nat) (bs : List Nat)
    (do_emulation_prevention : Bool) : Nat × List Nat :=
  match bs with
  | [] => (last_two_bytes, [])
  | b :: rest =>
    let first := write_byte last_two_bytes b do_emulation_prevention
    let more := write_byte_many first.1 rest do_emulation_prevention
    (more.1, first.2 ++ more.2)

/-- Modelled from the spec: the NALU parser "strips emulation-prevention
bytes (`0x000003 → 0x0000`)" from SEI payloads.  `zeros` counts (capped at
two) the zero bytes immediately preceding the current position; a `0x03`
seen after two zeros is the inserted emulation-prevention byte and is
dropped. -/
def strip_emulation (zeros : Nat) : List Nat → List Nat
  | [] => []
  | b :: rest =>
    if 2 ≤ zeros ∧ b = 3 then strip_emulation 0 rest
    else b :: strip_emulation (if b = 0 then min (zeros + 1) 2 else 0) rest

/-- The number of trailing zero bytes (capped at two) recorded by a
`last_two_bytes` state below `2^16`: the low byte is the byte written
last. -/
def zerosOf (last_two_bytes : Nat) : Nat :=
  if last_two_bytes % 256 ≠ 0 then 0
  else if last_two_bytes = 0 then 2
  else 1

/-- The sequence of bytes `encode_axis_communications_handle` feeds to
`write_byte`, in source order: the version, then the certificate-chain
length byte and the NUL-terminated chain (a single NUL when the chain is
NULL), then the attestation size byte and the attestation bytes.  Length
bytes are narrowed to `uint8_t` by `write_byte`'s parameter type; the
narrowing is made explicit here. -/
def encode_axis_raw_bytes (self : sv_vendor_axis_communications_t) : List Nat :=
  [1]
  ++ (match self.certificate_chain with
      | some cert => ((cert.length + 1) % 256) :: (cert ++ [0])
      | none => [1, 0])
  ++ [self.attestation_size % 256]
  ++ (List.range self.attestation_size).map
      (fun jj => (self.attestation.getD []).getD jj 0)

/-- The `data == NULL` branch of `encode_axis_communications_handle`: the
declared size `data_size` (version byte + attestation size byte +
attestation + certificate-chain length byte + chain incl. NUL), summed as in
the source.  A NULL handle returns 0. -/
def encode_axis_communications_size
    (handle : Option sv_vendor_axis_communications_t) : Nat :=
  match handle with
  | none => 0
  | some self =>
    1 + (1 + self.attestation_size)
      + (match self.certificate_chain with
         | some cert => cert.length + 2
         | none => 2)

/-- The writing branch of `encode_axis_communications_handle`: every byte of
`encode_axis_raw_bytes` goes through `write_byte` with emulation prevention
enabled, threading `last_two_bytes`.  Returns the final `last_two_bytes`
state and the bytes written; the C function's return value
(`data_ptr - data`) is the length of that list. -/
def encode_axis_communications_handle
    (handle : Option sv_vendor_axis_communications_t)
    (last_two_bytes : Nat) : Nat × List Nat :=
  match handle with
  | none => (last_two_bytes, [])
  | some self => write_byte_many last_two_bytes (encode_axis_raw_bytes self) true

/-- `decode_axis_communications_handle`.  The pointer walk of the source:
read `version` and `cert_size`, reject version 0 as incompatible, copy the
NUL-terminated string at the cursor into `certificate_chain`
(`allocate_memory_and_copy_string`, not among the sources, is modelled from
its use: allocation succeeds and the handle field becomes a copy of the
string), advance by the declared `cert_size`, read `attestation_size`, copy
that many bytes into `attestation` (the source `malloc`s only when the field
is NULL; a fresh handle is NULL there, and the model replaces the buffer),
and finally require the cursor to land exactly on `data + data_size`.
Out-of-range reads (undefined behaviour in C) are modelled by `List.getD`
with default 0 / truncated slices. -/
def decode_axis_communications_handle
    (handle : Option sv_vendor_axis_communications_t)
    (data : List Nat) (data_size : Nat) :
    svi_rc × Option sv_vendor_axis_communications_t :=
  match handle with
  | none => (SVI_INVALID_PARAMETER, none)
  | some self =>
    let version := data.getD 0 0
    let cert_size := data.getD 1 0
    if version = 0 then (SVI_INCOMPATIBLE_VERSION, some self)
    else
      let self := { self with
        certificate_chain := some ((data.drop 2).takeWhile (fun b => b ≠ 0)) }
      let attestation_size := data.getD (2 + cert_size) 0
      let self := { self with attestation_size := attestation_size }
      let self :=
        if 0 < attestation_size then
          { self with
            attestation := some ((data.drop (2 + cert_size + 1)).take attestation_size) }
        else self
      if 2 + cert_size + 1 + attestation_size ≠ data_size then
        (SVI_DECODING_ERROR, some self)
      else (SVI_OK, some self)

/-- The session struct (`signed_video_t`), restricted to the fields the
vendor module touches: the vendor handle and the session-side copies of the
attestation report and certificate chain, plus the flag recording that the
vendor encoders have been installed. -/
structure signed_video_t where
  vendor_handle : Option sv_vendor_axis_communications_t
  attestation : Option (List Nat)
  attestation_size : Nat
  certificate_chain : Option (List Nat)
  vendor_encoders_set : Bool
deriving DecidableEq, Repr

/-- The `catch_error` label of
`sv_vendor_axis_communications_set_attestation_report`: free and reset the
attestation fields when the attestation branch had started allocating, and
the certificate-chain fields when the chain branch had, on both the handle
and the session. -/
def set_attestation_catch (sv : signed_video_t)
    (self : sv_vendor_axis_communications_t)
    (allocated_attestation allocated_certificate_chain : Bool) :
    SignedVideoReturnCode × Option signed_video_t :=
  let self :=
    if allocated_attestation then
      { self with attestation := none, attestation_size := 0 }
    else self
  let sv :=
    if allocated_attestation then
      { sv with attestation := none, attestation_size := 0 }
    else sv
  let self :=
    if allocated_certificate_chain then { self with certificate_chain := none }
    else self
  let sv :=
    if allocated_certificate_chain then { sv with certificate_chain := none }
    else sv
  (SV_MEMORY, some { sv with vendor_handle := some self })

/-- The certificate-chain half of
`sv_vendor_axis_communications_set_attestation_report`, entered after the
attestation half with `allocated_attestation` recording whether that half
allocated.  `a3`/`a4` are the allocation oracle for the two `calloc`s. -/
def set_attestation_cert_phase (a3 a4 : Bool) (allocated_attestation : Bool)
    (sv : signed_video_t) (self : sv_vendor_axis_communications_t)
    (certificate_chain : Option (List Nat)) :
    SignedVideoReturnCode × Option signed_video_t :=
  match certificate_chain with
  | none =>
    (SV_OK, some { sv with vendor_handle := some self, vendor_encoders_set := true })
  | some cb =>
    if self.certificate_chain.isSome ∨ sv.certificate_chain.isSome then
      (SV_NOT_SUPPORTED, some { sv with vendor_handle := some self })
    else
      let self := { self with certificate_chain := if a3 then some cb else none }
      if ¬a3 then set_attestation_catch sv self allocated_attestation true
      else
        let sv := { sv with certificate_chain := if a4 then some cb else none }
        if ¬a4 then set_attestation_catch sv self allocated_attestation true
        else
          (SV_OK,
           some { sv with vendor_handle := some self, vendor_encoders_set := true })

/-- `sv_vendor_axis_communications_set_attestation_report`.  `a1`–`a4` form
the allocation oracle for, in source order, the handle-side attestation
`malloc`, the session-side attestation `malloc`, the handle-side chain
`calloc` and the session-side chain `calloc` (`true` = allocation
succeeds).  A failed allocation leaves a NULL field, sets the
`allocated_…` flag (the source sets the flag before the NULL check) and
jumps to `catch_error`. -/
def sv_vendor_axis_communications_set_attestation_report
    (a1 a2 a3 a4 : Bool) (sv? : Option signed_video_t)
    (attestation : Option (List Nat)) (attestation_size : Nat)
    (certificate_chain : Option (List Nat)) :
    SignedVideoReturnCode × Option signed_video_t :=
  match sv? with
  | none => (SV_INVALID_PARAMETER, none)
  | some sv =>
    if attestation.isNone ∧ certificate_chain.isNone then
      (SV_INVALID_PARAMETER, some sv)
    else if (attestation.isSome ∧ attestation_size = 0) ∨
        (attestation.isNone ∧ 0 < attestation_size) then
      (SV_INVALID_PARAMETER, some sv)
    else
      match sv.vendor_handle with
      | none => (SV_NOT_SUPPORTED, some sv)
      | some self =>
        match attestation with
        | none => set_attestation_cert_phase a3 a4 false sv self certificate_chain
        | some ab =>
          if self.attestation.isSome ∨ sv.attestation.isSome then
            (SV_NOT_SUPPORTED, some { sv with vendor_handle := some self })
          else
            let self := { self with attestation := if a1 then some ab else none }
            if ¬a1 then set_attestation_catch sv self true false
            else
              let self := { self with attestation_size := attestation_size }
              let sv := { sv with attestation := if a2 then some ab else none }
              if ¬a2 then set_attestation_catch sv self true false
              else
                let sv := { sv with attestation_size := attestation_size }
                set_attestation_cert_phase a3 a4 true sv self certificate_chain

/-!
## The GOP validation pipeline, modelled from the spec

The implementation of the signer and of the validation engine is not among
the sources (only its internal header and its unit tests are), so the
pipeline is modelled from the spec (§3–§4.6, §8): the reference signer
emits, before every I-frame, a signed-video SEI carrying the GOP hash of
the GOP that the I-frame closes; the chained-hash rule includes the first
NAL unit of the new GOP in the previous GOP's hash; the validator keeps a
pending list, validates a GOP once the SEI and its chained NAL unit have
both arrived, compares recomputed against declared hashes (whole-GOP at GOP
level, per-item with missing-item detection at FRAME level), reconciles the
declared against the received picture count, and latches
`first_verification_not_authentic` so an item marked not-authentic cannot
regress to authentic.  The cryptographic digest and signature are modelled
as an ideal (injective) hash: per-NALU hash = (stream position, tampered?),
GOP hash = the list of per-NALU hashes, and the Verifier accepts exactly
the declared hashes. -/

/-- A per-NALU hash: the picture's position in the original stream together
with a tampered flag.  Distinct pictures and tampered variants hash
differently — the ideal-digest abstraction of the spec's fixed-size
digest. -/
abbrev NaluHash := Nat × Bool

/-- A picture NAL unit of the pre-signing stream: I-frame or P-frame. -/
inductive Pic
  | i
  | p
deriving DecidableEq, Repr

/-- A NAL unit of the signed stream: a picture (`isI`, stream id, tampered
flag) or a signed-video SEI carrying the declared hash list of the GOP it
signs (the GOP's pictures followed by the chained first NAL unit of the
next GOP) and the declared number of pictures in that GOP
(`num_nalus_in_gop`, excluding the chained one). -/
inductive SNalu
  | pic (isI : Bool) (id : Nat) (tampered : Bool)
  | sei (declared : List NaluHash) (num_nalus_in_gop : Nat)
deriving DecidableEq, Repr

/-- The hash of a received picture NAL unit. -/
def picHash (id : Nat) (tampered : Bool) : NaluHash := (id, tampered)

/-- The reference signer (recurrence R = 1, offset 0), modelled from the
spec: walking the picture stream, it emits before every I-frame a SEI whose
declared hash list is the accumulated hashes of the closing GOP followed by
the chained hash of this I-frame, and whose declared picture count is the
closing GOP's size; the I-frame then starts a new GOP.  `idx` is the next
stream position, `acc` the hashes accumulated for the open GOP. -/
def signAux (idx : Nat) (acc : List NaluHash) : List Pic → List SNalu
  | [] => []
  | Pic.i :: rest =>
    SNalu.sei (acc ++ [picHash idx false]) acc.length
      :: SNalu.pic true idx false
      :: signAux (idx + 1) [picHash idx false] rest
  | Pic.p :: rest =>
    SNalu.pic false idx false :: signAux (idx + 1) (acc ++ [picHash idx false]) rest

/-- Sign a picture stream from scratch. -/
def sign (s : List Pic) : List SNalu := signAux 0 [] s

/-- One entry of the validator's pending list (`h26x_nalu_list_item_t`,
restricted to what verdicts depend on): the item's hash and its
`first_verification_not_authentic` latch. -/
structure VItem where
  hash : NaluHash
  latched : Bool
deriving DecidableEq, Repr

/-- Authenticity level (`SV_AUTHENTICITY_LEVEL_GOP` /
`SV_AUTHENTICITY_LEVEL_FRAME`). -/
inductive AuthLevel
  | gop
  | frame
deriving DecidableEq, Repr

/-- Per-GOP verdict surfaced in the authenticity report
(`SV_AUTH_RESULT_OK` / `SV_AUTH_RESULT_OK_WITH_MISSING_INFO` /
`SV_AUTH_RESULT_NOT_OK`). -/
inductive Verdict
  | ok
  | okWithMissing
  | notOk
deriving DecidableEq, Repr

/-- Greedy subsequence test: does the first list occur, in order, inside
the second?  With the ideal per-NALU hashes this is the FRAME-level
matching of received against declared hash lists: holes are missing
items. -/
def isSubseqOf : List NaluHash → List NaluHash → Bool
  | [], _ => true
  | _ :: _, [] => false
  | a :: as, b :: bs => if a = b then isSubseqOf as bs else isSubseqOf (a :: as) bs

/-- The verdict for one validated GOP window.  `window` is the pending
items of the GOP (its pictures, ending with the chained first NAL unit of
the next GOP); `declared` is the SEI's hash list.  At GOP level the
recomputed GOP hash must equal the declared one and no item may carry the
not-authentic latch; at FRAME level a received list that is a proper
subsequence of the declared one means missing items only
(OK-WITH-MISSING-INFO), anything else is NOT-OK. -/
def windowVerdict (lvl : AuthLevel) (declared : List NaluHash)
    (window : List VItem) : Verdict :=
  let received := window.map (fun it => it.hash)
  let clean := window.all fun it => !it.latched
  match lvl with
  | AuthLevel.gop =>
    if received = declared ∧ clean = true then Verdict.ok else Verdict.notOk
  | AuthLevel.frame =>
    if received = declared ∧ clean = true then Verdict.ok
    else if isSubseqOf received declared = true ∧ clean = true then
      Verdict.okWithMissing
    else Verdict.notOk

/-- Whether the chained item (the last of the window, first of the next
GOP) leaves the validation latched as not authentic: on a GOP-level failure
every item of the window is marked `N`; on a FRAME-level failure only a
chained item whose hash does not match the declared chained hash is. -/
def chainedLatch (lvl : AuthLevel) (declared : List NaluHash)
    (window : List VItem) (v : Verdict) : Bool :=
  match v with
  | Verdict.ok => false
  | Verdict.okWithMissing => false
  | Verdict.notOk =>
    match lvl with
    | AuthLevel.gop => true
    | AuthLevel.frame =>
      decide ((window.map (fun it => it.hash)).getLast? ≠ declared.getLast?)

/-- Validator state: the pending list and the SEI whose GOP closes at the
next NAL unit (`validate_after_next_nalu`). -/
structure VState where
  items : List VItem
  awaiting : Option (List NaluHash × Nat)
deriving DecidableEq, Repr

/-- The statistics the unit tests accumulate over all authenticity reports
of a session (`struct validation_stats`): verdict counters, the summed
`expected − received` picture count differences, and the summed pending
picture counts. -/
structure Stats where
  valid_gops : Nat
  valid_gops_with_missing_info : Nat
  invalid_gops : Nat
  missed_nalus : Int
  pending_nalus : Nat
deriving DecidableEq, Repr

/-- One validator step.  A SEI is decoded and parks its declared data until
the next NAL unit; a picture is appended to the pending list with status
pending, and, if a SEI is parked, closes the GOP window: the verdict is
computed, validated items are drained, the chained item (this picture)
stays pending with its latch set by the verdict, and the report counters
are updated (`expected − received` uses the declared picture count against
the window without its chained item). -/
def vstep (lvl : AuthLevel) (st : VState × Stats) (n : SNalu) : VState × Stats :=
  match n with
  | SNalu.sei declared num => ({ st.1 with awaiting := some (declared, num) }, st.2)
  | SNalu.pic _ id tampered =>
    let item : VItem := { hash := picHash id tampered, latched := false }
    let window := st.1.items ++ [item]
    match st.1.awaiting with
    | none => ({ items := window, awaiting := none }, st.2)
    | some (declared, num) =>
      let v := windowVerdict lvl declared window
      let chained : VItem := { item with latched := chainedLatch lvl declared window v }
      let stats := st.2
      ({ items := [chained], awaiting := none },
       { valid_gops := stats.valid_gops + (if v = Verdict.ok then 1 else 0),
         valid_gops_with_missing_info :=
           stats.valid_gops_with_missing_info +
             (if v = Verdict.okWithMissing then 1 else 0),
         invalid_gops := stats.invalid_gops + (if v = Verdict.notOk then 1 else 0),
         missed_nalus := stats.missed_nalus + ((num : Int) - ((window.length - 1 : Nat) : Int)),
         pending_nalus := stats.pending_nalus + 1 })

/-- Validate a signed stream in arrival order from a fresh session and
return the accumulated statistics. -/
def validate (lvl : AuthLevel) (stream : List SNalu) : Stats :=
  (stream.foldl (vstep lvl)
    ({ items := [], awaiting := none },
     { valid_gops := 0, valid_gops_with_missing_info := 0, invalid_gops := 0,
       missed_nalus := 0, pending_nalus := 0 })).2

/-- Number of I-frames of a picture stream = number of GOPs the signer
signs. -/
def numI : List Pic → Nat
  | [] => 0
  | Pic.i :: rest => numI rest + 1
  | Pic.p :: rest => numI rest

/-- Replace the `k`-th (0-based) NAL unit of a stream using `f`. -/
def mapAt (k : Nat) (f : SNalu → SNalu) : List SNalu → List SNalu
  | [] => []
  | x :: xs =>
    match k with
    | 0 => f x :: xs
    | k + 1 => x :: mapAt k f xs

/-- Tamper with a picture NAL unit (a modified NALU hashes differently). -/
def tamper : SNalu → SNalu
  | SNalu.pic isI id _ => SNalu.pic isI id true
  | n => n

/-- Modelled from the spec: the parse validity of a single NAL unit
(`is_valid` in `h26x_nalu_t`: 1 valid, 0 recognisably invalid, −1 parse
error). -/
inductive NaluParseValidity
  | valid
  | invalid
  | parse_error
deriving DecidableEq, Repr

/-- Modelled from the spec: the validation-status character a freshly added
item receives ('P' pending for a valid NAL unit; an unparseable NAL unit
becomes 'E', a recognisably invalid one 'U'; processing continues either
way). -/
def validation_status_of : NaluParseValidity → Char
  | NaluParseValidity.valid => 'P'
  | NaluParseValidity.invalid => 'U'
  | NaluParseValidity.parse_error => 'E'

/-- Modelled from the spec: the parameter validation of the public
`signed_video_add_nalu_and_authenticate` entry point (implementation not
among the sources; its unit test checks NULL session, NULL data and zero
size).  NULL pointers and zero-sized NAL units are invalid parameters;
every other input — including recognisably invalid or unparseable NAL
units, which only mark their item 'E'/'U' — returns `SV_OK`. -/
def signed_video_add_nalu_and_authenticate (self : Option signed_video_t)
    (nalu_data : Option (List Nat)) (nalu_data_size : Nat) :
    SignedVideoReturnCode :=
  if self.isNone ∨ nalu_data.isNone ∨ nalu_data_size = 0 then SV_INVALID_PARAMETER
  else SV_OK

/-- A fresh session with no vendor handle. -/
def fresh_session : signed_video_t :=
  { vendor_handle := none, attestation := none, attestation_size := 0,
    certificate_chain := none, vendor_encoders_set := false }

/-- The picture stream `IPPIPPIPPIPPIPPIPPI` of the `intact_stream` unit
test. -/
def pics_IPPIPPIPPIPPIPPIPPI : List Pic :=
  [Pic.i, Pic.p, Pic.p, Pic.i, Pic.p, Pic.p, Pic.i, Pic.p, Pic.p, Pic.i,
   Pic.p, Pic.p, Pic.i, Pic.p, Pic.p, Pic.i, Pic.p, Pic.p, Pic.i]

/-- The signed stream `GIPPGIPPGIPPGIPPGIPPGIPPGI` (each `sei` is a `G`):
what the reference signer produces from `IPPIPPIPPIPPIPPIPPI` at R = 1,
offset 0. -/
def stream_GIPPGIPPGIPPGIPPGIPPGIPPGI : List SNalu :=
  [SNalu.sei [(0, false)] 0,
   SNalu.pic true 0 false,
   SNalu.pic false 1 false,
   SNalu.pic false 2 false,
   SNalu.sei [(0, false), (1, false), (2, false), (3, false)] 3,
   SNalu.pic true 3 false,
   SNalu.pic false 4 false,
   SNalu.pic false 5 false,
   SNalu.sei [(3, false), (4, false), (5, false), (6, false)] 3,
   SNalu.pic true 6 false,
   SNalu.pic false 7 false,
   SNalu.pic false 8 false,
   SNalu.sei [(6, false), (7, false), (8, false), (9, false)] 3,
   SNalu.pic true 9 false,
   SNalu.pic false 10 false,
   SNalu.pic false 11 false,
   SNalu.sei [(9, false), (10, false), (11, false), (12, false)] 3,
   SNalu.pic true 12 false,
   SNalu.pic false 13 false,
   SNalu.pic false 14 false,
   SNalu.sei [(12, false), (13, false), (14, false), (15, false)] 3,
   SNalu.pic true 15 false,
   SNalu.pic false 16 false,
   SNalu.pic false 17 false,
   SNalu.sei [(15, false), (16, false), (17, false), (18, false)] 3,
   SNalu.pic true 18 false]

/-- The picture stream `IPPIPPPIPPI` of the `modify_one_i_nalu` and
`remove_one_p_nalu` unit tests. -/
def pics_IPPIPPPIPPI : List Pic :=
  [Pic.i, Pic.p, Pic.p, Pic.i, Pic.p, Pic.p, Pic.p, Pic.i, Pic.p, Pic.p, Pic.i]

/-- The signed stream `GIPPGIPPPGIPPGI`: what the reference signer produces
from `IPPIPPPIPPI` at R = 1, offset 0.  1-based item #6 (0-based index 5)
is the middle I-NALU, item #8 (index 7) the middle P-NALU. -/
def stream_GIPPGIPPPGIPPGI : List SNalu :=
  [SNalu.sei [(0, false)] 0,
   SNalu.pic true 0 false,
   SNalu.pic false 1 false,
   SNalu.pic false 2 false,
   SNalu.sei [(0, false), (1, false), (2, false), (3, false)] 3,
   SNalu.pic true 3 false,
   SNalu.pic false 4 false,
   SNalu.pic false 5 false,
   SNalu.pic false 6 false,
   SNalu.sei [(3, false), (4, false), (5, false), (6, false), (7, false)] 4,
   SNalu.pic true 7 false,
   SNalu.pic false 8 false,
   SNalu.pic false 9 false,
   SNalu.sei [(7, false), (8, false), (9, false), (10, false)] 3,
   SNalu.pic true 10 false]

/-! ## Helper lemmas -/

/-- Reading the `n`-th element with default 0 of a list of bytes below 256
stays below 256. -/
theorem getD_lt_256 (l : List Nat) (j : Nat) (hl : ∀ b ∈ l, b < 256) :
    l.getD j 0 < 256 := by
  by_cases h : j < l.length
  · rw [List.getD_eq_getElem l 0 h]
    exact hl _ (l.getElem_mem h)
  · rw [List.getD_eq_default l 0 (by omega)]
    norm_num

/-- Copying a NUL-terminated string: `takeWhile` up to the NUL recovers
exactly the NUL-free prefix. -/
theorem takeWhile_ne_zero_append (s rest : List Nat) (hs : ∀ b ∈ s, b ≠ 0) :
    (s ++ 0 :: rest).takeWhile (fun b => b ≠ 0) = s := by
  induction s with
  | nil => simp
  | cons a as ih =>
    have ha : a ≠ 0 := hs a (by simp)
    have ih' := ih (fun b hb => hs b (by simp [hb]))
    simp [List.takeWhile_cons, ha]
    simpa using ih'

/-- Reading a list back element-by-element with `getD` over its index range
reproduces the list. -/
theorem range_map_getD (l : List Nat) :
    (List.range l.length).map (fun j => l.getD j 0) = l := by
  apply List.ext_getElem (by simp)
  intro i h1 h2
  simp [List.getD_eq_getElem?_getD, List.getElem?_eq_getElem h2]

/-- `zerosOf` reaches two only in the all-zero tracking state. -/
theorem zerosOf_eq_two (lt : Nat) (h : 2 ≤ zerosOf lt) : lt = 0 := by
  unfold zerosOf at h
  split_ifs at h <;> omega

/-- The `uint16_t` tracking state stays below `2^16`. -/
theorem write_byte_fst_lt (lt b : Nat) (ep : Bool) : (write_byte lt b ep).1 < 65536 := by
  simp only [write_byte]
  split_ifs <;> exact Nat.mod_lt _ (by norm_num)

/-- Stepping the stripper's zero counter matches stepping the writer's
`last_two_bytes` state. -/
theorem zerosOf_step (lt b : Nat) (hb : b < 256) :
    (if b = 0 then min (zerosOf lt + 1) 2 else 0) = zerosOf ((lt * 256 + b) % 65536) := by
  have h1 : (lt * 256 + b) % 65536 % 256 = b := by omega
  have h2 : ((lt * 256 + b) % 65536 = 0) ↔ lt % 256 = 0 ∧ b = 0 := by omega
  simp only [zerosOf]
  split_ifs <;> omega

/-- One `write_byte` with emulation prevention enabled, followed by the
stripper in the matching state, hands the written byte back and leaves the
stripper in the state matching the new `last_two_bytes`. -/
theorem strip_write_byte_step (lt b : Nat) (out : List Nat) (hb : b < 256) :
    strip_emulation (zerosOf lt) ((write_byte lt b true).2 ++ out)
      = b :: strip_emulation (zerosOf (write_byte lt b true).1) out := by
  have hbm : b % 256 = b := Nat.mod_eq_of_lt hb
  simp only [write_byte, hbm]
  by_cases hc : b < 4 ∧ lt = 0
  · obtain ⟨hb4, hlt0⟩ := hc
    subst hlt0
    rw [if_pos ⟨trivial, hb4, rfl⟩]
    have hz0 : zerosOf 0 = 2 := by simp [zerosOf]
    have hstep := zerosOf_step 3 b hb
    have hz3 : zerosOf 3 = 0 := by simp [zerosOf]
    rw [hz3] at hstep
    simp only [hz0, List.cons_append, strip_emulation]
    rw [if_pos ⟨le_refl 2, trivial⟩]
    rw [if_neg (by omega)]
    rw [← hstep]
    simp
  · rw [if_neg (fun h => hc ⟨h.2.1, h.2.2⟩)]
    simp only [List.cons_append, List.nil_append, strip_emulation]
    rw [if_neg (fun h => hc ⟨by omega, zerosOf_eq_two lt h.1⟩)]
    rw [zerosOf_step lt b hb]
    simp

/-- Writing a byte sequence through `write_byte` with emulation prevention
enabled from any tracking state below `2^16` and then stripping
emulation-prevention bytes in the matching state recovers the sequence. -/
theorem strip_write_byte_many (bs : List Nat) :
    ∀ lt : Nat, (∀ b ∈ bs, b < 256) →
      strip_emulation (zerosOf lt) (write_byte_many lt bs true).2 = bs := by
  induction bs with
  | nil => intro lt _; simp [write_byte_many, strip_emulation]
  | cons b rest ih =>
    intro lt hb
    have hb256 : b < 256 := hb b (by simp)
    have hrest : ∀ x ∈ rest, x < 256 := fun x hx => hb x (by simp [hx])
    simp only [write_byte_many]
    rw [strip_write_byte_step lt b _ hb256]
    rw [ih (write_byte lt b true).1 hrest]

/-- Fold invariant of the intact-stream validation: from a state whose
pending items are exactly the unlatched, untampered pictures of the
signer's open GOP (in order, with matching hashes) and no parked SEI,
validating the rest of a reference-signed stream adds exactly one OK
verdict and one pending picture per remaining GOP and touches no other
counter. -/
theorem validate_signAux (lvl : AuthLevel) (rest : List Pic) :
    ∀ (idx : Nat) (acc : List NaluHash) (items : List VItem) (stats : Stats),
      items.map (fun it => it.hash) = acc →
      (items.all fun it => !it.latched) = true →
      (List.foldl (vstep lvl)
          ({ items := items, awaiting := none }, stats) (signAux idx acc rest)).2 =
        { valid_gops := stats.valid_gops + numI rest,
          valid_gops_with_missing_info := stats.valid_gops_with_missing_info,
          invalid_gops := stats.invalid_gops,
          missed_nalus := stats.missed_nalus,
          pending_nalus := stats.pending_nalus + numI rest } := by
  induction rest with
  | nil =>
    intro idx acc items stats hmap hclean
    simp [signAux, numI]
  | cons hd tl ih =>
    intro idx acc items stats hmap hclean
    cases hd with
    | p =>
      rw [signAux, List.foldl_cons]
      have hstep : vstep lvl ({ items := items, awaiting := none }, stats)
          (SNalu.pic false idx false)
          = ({ items := items ++ [{ hash := picHash idx false, latched := false }],
               awaiting := none }, stats) := by
        simp [vstep]
      rw [hstep,
        ih (idx + 1) (acc ++ [picHash idx false]) _ stats (by simp [hmap]) (by simp [hclean])]
      simp [numI]
    | i =>
      rw [signAux, List.foldl_cons, List.foldl_cons]
      have hsei : vstep lvl ({ items := items, awaiting := none }, stats)
          (SNalu.sei (acc ++ [picHash idx false]) acc.length)
          = ({ items := items, awaiting := some (acc ++ [picHash idx false], acc.length) },
             stats) := by
        simp [vstep]
      rw [hsei]
      have hrecv : ((items ++ [({ hash := picHash idx false, latched := false } : VItem)]).map
          fun it => it.hash) = acc ++ [picHash idx false] := by
        simp [hmap]
      have hclean2 : ((items ++ [({ hash := picHash idx false, latched := false } : VItem)]).all
          fun it => !it.latched) = true := by
        simp [hclean]
      have hverdict : windowVerdict lvl (acc ++ [picHash idx false])
          (items ++ [{ hash := picHash idx false, latched := false }]) = Verdict.ok := by
        cases lvl <;> simp [windowVerdict, hrecv, hclean2]
      have hlen : items.length = acc.length := by
        have h := congrArg List.length hmap
        simpa using h
      have hpic : vstep lvl
          ({ items := items, awaiting := some (acc ++ [picHash idx false], acc.length) }, stats)
          (SNalu.pic true idx false)
          = ({ items := [{ hash := picHash idx false, latched := false }], awaiting := none },
             { valid_gops := stats.valid_gops + 1,
               valid_gops_with_missing_info := stats.valid_gops_with_missing_info,
               invalid_gops := stats.invalid_gops,
               missed_nalus := stats.missed_nalus,
               pending_nalus := stats.pending_nalus + 1 }) := by
        simp only [vstep, hverdict, chainedLatch]
        simp [hlen]
      rw [hpic,
        ih (idx + 1) [picHash idx false] _ _ (by simp) (by simp)]
      simp only [numI, Stats.mk.injEq]
      exact ⟨by omega, trivial, trivial, trivial, by omega⟩

/-! ## Claim theorems -/

/-- Claim C1. For every stream produced by the reference signer and validated
in arrival order, every GOP is reported OK and the pending count at
end-of-stream equals one per GOP (the number of GOPs = the number of
I-frames); in particular, the signed stream `GIPPGIPPGIPPGIPPGIPPGIPPGI`
(from `IPPIPPIPPIPPIPPIPPI`, R = 1, offset 0) reports exactly 7 valid GOPs
and 7 pending NAL units in total, at both authenticity levels. -/
theorem intact_reference_streams_validate_ok :
    (∀ (lvl : AuthLevel) (s : List Pic),
      validate lvl (sign s) =
        { valid_gops := numI s, valid_gops_with_missing_info := 0, invalid_gops := 0,
          missed_nalus := 0, pending_nalus := numI s }) ∧
    sign pics_IPPIPPIPPIPPIPPIPPI = stream_GIPPGIPPGIPPGIPPGIPPGIPPGI ∧
    numI pics_IPPIPPIPPIPPIPPIPPI = 7 ∧
    validate AuthLevel.gop stream_GIPPGIPPGIPPGIPPGIPPGIPPGI =
      { valid_gops := 7, valid_gops_with_missing_info := 0, invalid_gops := 0,
        missed_nalus := 0, pending_nalus := 7 } ∧
    validate AuthLevel.frame stream_GIPPGIPPGIPPGIPPGIPPGIPPGI =
      { valid_gops := 7, valid_gops_with_missing_info := 0, invalid_gops := 0,
        missed_nalus := 0, pending_nalus := 7 } := by
  refine ⟨fun lvl s => ?_, by decide, by decide, by decide, by decide⟩
  have h := validate_signAux lvl s 0 [] []
    { valid_gops := 0, valid_gops_with_missing_info := 0, invalid_gops := 0,
      missed_nalus := 0, pending_nalus := 0 } rfl rfl
  simpa [validate, sign] using h

/-- Claim C2. In `GIPPGIPPPGIPPGI` (from `IPPIPPPIPPI`, R = 1, offset 0),
item #6 (0-based index 5) is the middle I-NALU; modifying it yields, at GOP
authenticity level, exactly 1 valid and 3 invalid GOPs (the chained hash
spreads the damage to the neighbouring GOP, and the GOP-level latch to a
third), and at FRAME level exactly 2 valid and 2 invalid GOPs. -/
theorem modified_middle_i_nalu_verdicts :
    sign pics_IPPIPPPIPPI = stream_GIPPGIPPPGIPPGI ∧
    stream_GIPPGIPPPGIPPGI.getD 5 (SNalu.sei [] 0) = SNalu.pic true 3 false ∧
    validate AuthLevel.gop (mapAt 5 tamper stream_GIPPGIPPPGIPPGI) =
      { valid_gops := 1, valid_gops_with_missing_info := 0, invalid_gops := 3,
        missed_nalus := 0, pending_nalus := 4 } ∧
    validate AuthLevel.frame (mapAt 5 tamper stream_GIPPGIPPPGIPPGI) =
      { valid_gops := 2, valid_gops_with_missing_info := 0, invalid_gops := 2,
        missed_nalus := 0, pending_nalus := 4 } := by
  refine ⟨by decide, by decide, by decide, by decide⟩

/-- Claim C3. In `GIPPGIPPPGIPPGI` (from `IPPIPPPIPPI`, R = 1, offset 0),
item #8 (0-based index 7) is the middle P-NALU; removing it yields, at GOP
authenticity level, 2 valid GOPs, 2 invalid GOPs and 1 missed NAL unit, and
at FRAME level 3 valid GOPs, one GOP valid-with-missing-info and 1 missed
NAL unit. -/
theorem removed_middle_p_nalu_verdicts :
    stream_GIPPGIPPPGIPPGI.getD 7 (SNalu.sei [] 0) = SNalu.pic false 5 false ∧
    validate AuthLevel.gop (stream_GIPPGIPPPGIPPGI.eraseIdx 7) =
      { valid_gops := 2, valid_gops_with_missing_info := 0, invalid_gops := 2,
        missed_nalus := 1, pending_nalus := 4 } ∧
    validate AuthLevel.frame (stream_GIPPGIPPPGIPPGI.eraseIdx 7) =
      { valid_gops := 3, valid_gops_with_missing_info := 1, invalid_gops := 0,
        missed_nalus := 1, pending_nalus := 4 } := by
  refine ⟨by decide, by decide, by decide⟩

/-- Claim C8. `signed_video_add_nalu_and_authenticate` returns
`SV_INVALID_PARAMETER` exactly when the session pointer is NULL, the NALU
data pointer is NULL, or the NALU size is zero; for every non-null,
non-empty input — including recognisably invalid or unparseable NAL units —
it returns `SV_OK`, the single bad NAL unit being marked 'E' or 'U' while
processing continues. -/
theorem add_nalu_and_authenticate_input_handling :
    (∀ (sv : Option signed_video_t) (nalu_data : Option (List Nat)) (n : Nat),
      signed_video_add_nalu_and_authenticate sv nalu_data n = SV_INVALID_PARAMETER ↔
        sv = none ∨ nalu_data = none ∨ n = 0) ∧
    (∀ (sv : signed_video_t) (bytes : List Nat) (n : Nat), n ≠ 0 →
      signed_video_add_nalu_and_authenticate (some sv) (some bytes) n = SV_OK) ∧
    (∀ v : NaluParseValidity, v ≠ NaluParseValidity.valid →
      validation_status_of v = 'E' ∨ validation_status_of v = 'U') := by
  refine ⟨fun sv nalu_data n => ?_, fun sv bytes n hn => ?_, fun v hv => ?_⟩
  · cases sv <;> cases nalu_data <;>
      simp [signed_video_add_nalu_and_authenticate]
  · simp [signed_video_add_nalu_and_authenticate, hn]
  · cases v
    · exact absurd rfl hv
    · exact Or.inr rfl
    · exact Or.inl rfl

/-- Witness for C8: a well-formed call on a fresh session with an arbitrary
one-byte NAL unit returns `SV_OK`, and both non-valid parse outcomes are
marked 'E' or 'U'. -/
theorem add_nalu_and_authenticate_input_handling_witness :
    signed_video_add_nalu_and_authenticate (some fresh_session) (some [0]) 1 = SV_OK ∧
    (validation_status_of NaluParseValidity.parse_error = 'E' ∨
      validation_status_of NaluParseValidity.parse_error = 'U') := by
  exact ⟨add_nalu_and_authenticate_input_handling.2.1 fresh_session [0] 1 (by decide),
    add_nalu_and_authenticate_input_handling.2.2 NaluParseValidity.parse_error (by decide)⟩

/-- Claim C10. `decode_axis_communications_handle` is not atomic on error: on
the input `[1, 2, 65, 0, 2, 9, 9]` with a declared `data_size` of 8 (the
declared lengths consume only 7 bytes) applied to a fresh handle, it
returns `SVI_DECODING_ERROR` with the handle's certificate chain already
overwritten by the decoded string "A" and its attestation by the decoded
bytes — not rolled back to the fresh (NULL/NULL) pre-call state. -/
theorem decode_axis_error_leaves_mutated_handle :
    sv_vendor_axis_communications_setup.certificate_chain = none ∧
    sv_vendor_axis_communications_setup.attestation = none ∧
    decode_axis_communications_handle (some sv_vendor_axis_communications_setup)
        [1, 2, 65, 0, 2, 9, 9] 8
      = (SVI_DECODING_ERROR,
         some { attestation := some [9, 9], attestation_size := 2,
                certificate_chain := some [65] }) := by
  refine ⟨rfl, rfl, by decide⟩

/-- Claim C4, counterexample. Byte-exact round-trip fails when emulation
prevention kicks in: `[1, 1, 0, 3, 0, 0, 0]` is a well-formed version-1
Axis vendor TLV value (empty certificate-chain string, three-byte
attestation `00 00 00`; the fresh-handle decode accepts it), yet re-encoding
the decoded handle writes `[1, 1, 0, 3, 0, 0, 3, 0]` — `write_byte` inserts
an emulation-prevention `0x03` before the final zero — which differs from
the original byte sequence.  (By the time the trailing zeros are written the
tracking state is forced to zero, so no choice of `last_two_bytes` avoids
the insertion; `0xFFFF` is used here.) -/
theorem decode_encode_roundtrip_counterexample :
    (decode_axis_communications_handle (some sv_vendor_axis_communications_setup)
        [1, 1, 0, 3, 0, 0, 0] 7).1 = SVI_OK ∧
    (encode_axis_communications_handle
        (decode_axis_communications_handle (some sv_vendor_axis_communications_setup)
          [1, 1, 0, 3, 0, 0, 0] 7).2 65535).2 = [1, 1, 0, 3, 0, 0, 3, 0] ∧
    [1, 1, 0, 3, 0, 0, 3, 0] ≠ [1, 1, 0, 3, 0, 0, 0] := by
  refine ⟨by decide, by decide, by decide⟩

/-- Claim C4, amended. For every well-formed version-1 Axis vendor TLV value
(version byte 1, `cert_chain_len`, a NUL-terminated certificate-chain
string of exactly that length, `attestation_len`, the attestation bytes, no
trailing bytes), decoding it into a fresh handle succeeds, and re-encoding
the handle reproduces the original byte sequence up to the
emulation-prevention bytes that `write_byte` inserts: stripping them (with
the stripper initialised consistently with `last_two_bytes`) yields exactly
the original byte sequence, for every tracking state. -/
theorem decode_encode_roundtrip_modulo_emulation (s att : List Nat) (lt : Nat)
    (hs : ∀ b ∈ s, 0 < b ∧ b < 256) (hatt : ∀ b ∈ att, b < 256)
    (hslen : s.length + 1 ≤ 255) (hattlen : att.length ≤ 255) :
    (decode_axis_communications_handle (some sv_vendor_axis_communications_setup)
        (1 :: (s.length + 1) :: (s ++ 0 :: att.length :: att))
        (s.length + 1 + att.length + 3)).1 = SVI_OK ∧
    strip_emulation (zerosOf lt)
      (encode_axis_communications_handle
        (decode_axis_communications_handle (some sv_vendor_axis_communications_setup)
          (1 :: (s.length + 1) :: (s ++ 0 :: att.length :: att))
          (s.length + 1 + att.length + 3)).2 lt).2
      = 1 :: (s.length + 1) :: (s ++ 0 :: att.length :: att) := by
  have htail : (1 :: (s.length + 1) :: (s ++ 0 :: att.length :: att)).drop 2
      = s ++ 0 :: att.length :: att := rfl
  have hwhile : ((s ++ 0 :: att.length :: att).takeWhile fun b => b ≠ 0) = s :=
    takeWhile_ne_zero_append s (att.length :: att) (fun b hb => (hs b hb).1.ne')
  have hsplit : s ++ 0 :: att.length :: att = (s ++ [0]) ++ att.length :: att := by simp
  have hlen0 : (s ++ [0]).length = s.length + 1 := by simp
  have hgetD : (1 :: (s.length + 1) :: (s ++ 0 :: att.length :: att)).getD
      (2 + (s.length + 1)) 0 = att.length := by
    rw [show 2 + (s.length + 1) = (s.length + 1) + 1 + 1 by omega]
    rw [List.getD_cons_succ, List.getD_cons_succ, hsplit]
    rw [List.getD_append_right _ _ _ _ (by omega)]
    simp
  have hdrop : (1 :: (s.length + 1) :: (s ++ 0 :: att.length :: att)).drop
      (2 + (s.length + 1) + 1) = att := by
    rw [show 2 + (s.length + 1) + 1 = (s.length + 2) + 1 + 1 by omega]
    rw [List.drop_succ_cons, List.drop_succ_cons, hsplit]
    rw [show s.length + 2 = (s ++ [0]).length + 1 by simp]
    rw [List.drop_append]
    simp
  have hdec : decode_axis_communications_handle (some sv_vendor_axis_communications_setup)
      (1 :: (s.length + 1) :: (s ++ 0 :: att.length :: att)) (s.length + 1 + att.length + 3)
      = (SVI_OK,
         some { attestation := if 0 < att.length then some att else none,
                attestation_size := att.length,
                certificate_chain := some s }) := by
    simp only [decode_axis_communications_handle, List.getD_cons_zero, List.getD_cons_succ,
      htail, hwhile, hgetD, hdrop, one_ne_zero, if_false, List.take_length]
    rw [if_neg (by omega)]
    by_cases hal : 0 < att.length
    · simp [hal, sv_vendor_axis_communications_setup]
    · simp [hal, sv_vendor_axis_communications_setup]
  refine ⟨by rw [hdec], ?_⟩
  rw [hdec]
  have hmod1 : (s.length + 1) % 256 = s.length + 1 := Nat.mod_eq_of_lt (by omega)
  have hmod2 : att.length % 256 = att.length := Nat.mod_eq_of_lt (by omega)
  have hraw : encode_axis_raw_bytes
      { attestation := if 0 < att.length then some att else none,
        attestation_size := att.length, certificate_chain := some s }
      = 1 :: (s.length + 1) :: (s ++ 0 :: att.length :: att) := by
    by_cases hal : 0 < att.length
    · simp only [encode_axis_raw_bytes, if_pos hal, hmod1, hmod2, Option.getD_some]
      rw [range_map_getD att]
      simp
    · have hnil : att = [] := List.length_eq_zero.mp (by omega)
      subst hnil
      simp [encode_axis_raw_bytes, hmod1]
  have hbytes : ∀ b ∈ 1 :: (s.length + 1) :: (s ++ 0 :: att.length :: att), b < 256 := by
    intro b hb
    simp only [List.mem_cons, List.mem_append] at hb
    rcases hb with h | h | h | h | h | h
    · omega
    · omega
    · exact (hs b h).2
    · omega
    · omega
    · exact hatt b h
  simp only [encode_axis_communications_handle, hraw]
  exact strip_write_byte_many _ lt hbytes

/-- Witness for C4 (amended): the four-byte TLV value with an empty
certificate chain and no attestation round-trips byte-exactly through a
fresh handle from the tracking state `0xFFFF` (no emulation-prevention byte
is inserted, so stripping is the identity here). -/
theorem decode_encode_roundtrip_witness :
    (decode_axis_communications_handle (some sv_vendor_axis_communications_setup)
        [1, 1, 0, 0] 4).1 = SVI_OK ∧
    strip_emulation (zerosOf 65535)
      (encode_axis_communications_handle
        (decode_axis_communications_handle (some sv_vendor_axis_communications_setup)
          [1, 1, 0, 0] 4).2 65535).2 = [1, 1, 0, 0] := by
  have h := decode_encode_roundtrip_modulo_emulation [] [] 65535
    (by simp) (by simp) (by norm_num) (by norm_num)
  simpa using h

/-- Claim C7, counterexample. The decoder does not reject versions newer
than the known version 1: the well-formed value `[2, 1, 0, 0]` carries
version 2 (newer than 1) yet decodes with `SVI_OK`, while `[0, 1, 0, 0]`
carries version 0 (older than 1) yet is the one rejected with
`SVI_INCOMPATIBLE_VERSION` — the source throws exactly on `version == 0`. -/
theorem decode_axis_version_check_counterexample :
    (1 : Nat) < 2 ∧
    (decode_axis_communications_handle (some sv_vendor_axis_communications_setup)
        [2, 1, 0, 0] 4).1 = SVI_OK ∧
    (decode_axis_communications_handle (some sv_vendor_axis_communications_setup)
        [0, 1, 0, 0] 4).1 = SVI_INCOMPATIBLE_VERSION := by
  refine ⟨by decide, by decide, by decide⟩

/-- Claim C7, amended. `decode_axis_communications_handle` returns
`SVI_INCOMPATIBLE_VERSION` exactly when the decoded version byte is 0
(newer versions, including those above 1, are accepted); it returns
`SVI_DECODING_ERROR` exactly when the version is non-zero and the declared
certificate-chain and attestation lengths do not consume exactly
`data_size` bytes (length overruns or trailing bytes), and `SVI_OK`
otherwise. -/
theorem decode_axis_return_code_characterisation
    (self : sv_vendor_axis_communications_t) (data : List Nat) (data_size : Nat) :
    ((decode_axis_communications_handle (some self) data data_size).1
        = SVI_INCOMPATIBLE_VERSION ↔ data.getD 0 0 = 0) ∧
    ((decode_axis_communications_handle (some self) data data_size).1
        = SVI_DECODING_ERROR ↔
      data.getD 0 0 ≠ 0 ∧
        2 + data.getD 1 0 + 1 + data.getD (2 + data.getD 1 0) 0 ≠ data_size) ∧
    ((decode_axis_communications_handle (some self) data data_size).1 = SVI_OK ↔
      data.getD 0 0 ≠ 0 ∧
        2 + data.getD 1 0 + 1 + data.getD (2 + data.getD 1 0) 0 = data_size) := by
  simp only [decode_axis_communications_handle, List.getD_eq_getElem?_getD]
  by_cases hv : data[0]?.getD 0 = 0
  · rw [if_pos hv]
    simp [hv]
  · rw [if_neg hv]
    by_cases hsz : 2 + data[1]?.getD 0 + 1 + data[2 + data[1]?.getD 0]?.getD 0 = data_size
    · rw [if_neg (not_not_intro hsz)]
      simp [hv, hsz]
    · rw [if_pos hsz]
      simp [hv, hsz]

/-- Claim C9, counterexample. The size query does not account for
emulation-prevention bytes: on a fresh handle (no attestation, no
certificate chain) with `last_two_bytes = 0x0000`, the `data == NULL` pass
declares 4 bytes, but the writing pass inserts an emulation-prevention
`0x03` before the version byte and writes 5. -/
theorem encode_axis_size_counterexample :
    encode_axis_communications_size (some sv_vendor_axis_communications_setup) = 4 ∧
    ((encode_axis_communications_handle
        (some sv_vendor_axis_communications_setup) 0).2).length = 5 := by
  refine ⟨by decide, by decide⟩

/-- Every byte the encoder feeds to `write_byte` is below 256. -/
theorem encode_axis_raw_bytes_lt_256 (self : sv_vendor_axis_communications_t)
    (hc : ∀ b ∈ self.certificate_chain.getD [], b < 256)
    (ha : ∀ b ∈ self.attestation.getD [], b < 256) :
    ∀ b ∈ encode_axis_raw_bytes self, b < 256 := by
  have hA : self.attestation_size % 256 < 256 := Nat.mod_lt _ (by norm_num)
  have hmap : ∀ b ∈ (List.range self.attestation_size).map
      (fun jj => (self.attestation.getD []).getD jj 0), b < 256 := by
    intro b hb
    rcases List.mem_map.mp hb with ⟨j, _, hj⟩
    exact hj ▸ getD_lt_256 _ j ha
  have hmid : ∀ b ∈ (match self.certificate_chain with
      | some cert => ((cert.length + 1) % 256) :: (cert ++ [0])
      | none => [1, 0]), b < 256 := by
    rcases hcc : self.certificate_chain with _ | cert
    · intro b hb
      rcases List.mem_cons.mp hb with h | h
      · omega
      · have hb0 : b = 0 := by simpa using h
        omega
    · intro b hb
      rcases List.mem_cons.mp hb with h | h
      · exact h ▸ Nat.mod_lt _ (by norm_num)
      · rcases List.mem_append.mp h with h2 | h2
        · exact hc b (by rw [hcc]; exact h2)
        · have hb0 : b = 0 := by simpa using h2
          omega
  intro b hb
  unfold encode_axis_raw_bytes at hb
  rcases List.mem_append.mp hb with h | h
  · rcases List.mem_append.mp h with h1 | h1
    · rcases List.mem_append.mp h1 with h2 | h2
      · have hb1 : b = 1 := by simpa using h2
        omega
      · exact hmid b h2
    · have hbA : b = self.attestation_size % 256 := by simpa using h1
      omega
  · exact hmap b h

/-- Claim C9, amended. For every vendor handle state and every
`last_two_bytes` value, the size returned by the `data == NULL` pass of
`encode_axis_communications_handle` equals the number of bytes the writing
pass emits net of inserted emulation-prevention bytes: stripping the
emulation-prevention bytes from the written output yields exactly the raw
byte sequence, whose length is the declared size. -/
theorem encode_axis_size_counts_stripped_bytes
    (self : sv_vendor_axis_communications_t) (lt : Nat)
    (hc : ∀ b ∈ self.certificate_chain.getD [], b < 256)
    (ha : ∀ b ∈ self.attestation.getD [], b < 256) :
    strip_emulation (zerosOf lt) (encode_axis_communications_handle (some self) lt).2
      = encode_axis_raw_bytes self ∧
    (encode_axis_raw_bytes self).length = encode_axis_communications_size (some self) := by
  constructor
  · simp only [encode_axis_communications_handle]
    exact strip_write_byte_many _ lt (encode_axis_raw_bytes_lt_256 self hc ha)
  · rcases hcc : self.certificate_chain with _ | cert <;>
      simp [encode_axis_raw_bytes, encode_axis_communications_size, hcc] <;> omega

/-- Witness for C9 (amended): on the fresh handle from the tracking state
`0xFFFF`, the stripped writing-pass output is the raw byte sequence and the
declared size is its length. -/
theorem encode_axis_size_counts_stripped_bytes_witness :
    strip_emulation (zerosOf 65535)
      (encode_axis_communications_handle (some sv_vendor_axis_communications_setup) 65535).2
      = encode_axis_raw_bytes sv_vendor_axis_communications_setup ∧
    (encode_axis_raw_bytes sv_vendor_axis_communications_setup).length
      = encode_axis_communications_size (some sv_vendor_axis_communications_setup) :=
  encode_axis_size_counts_stripped_bytes sv_vendor_axis_communications_setup 65535
    (by simp [sv_vendor_axis_communications_setup])
    (by simp [sv_vendor_axis_communications_setup])

/-- Claim C5. If `sv_vendor_axis_communications_set_attestation_report` is
called to set both the attestation and the certificate chain on a session
whose fields are in their prior unset state and any of the four allocations
fails, it returns `SV_MEMORY` and every partial allocation is unwound: the
attestation and certificate-chain fields of both the vendor handle and the
session are back to NULL with size 0 — both fields are set, or neither
is. -/
theorem set_attestation_report_alloc_failure_unwinds
    (a1 a2 a3 a4 : Bool) (ab cb : List Nat) (n s0 t0 : Nat) (e : Bool)
    (hfail : ¬(a1 = true ∧ a2 = true ∧ a3 = true ∧ a4 = true)) (hn : 0 < n) :
    sv_vendor_axis_communications_set_attestation_report a1 a2 a3 a4
      (some ⟨some ⟨none, s0, none⟩, none, t0, none, e⟩) (some ab) n (some cb)
    = (SV_MEMORY, some ⟨some ⟨none, 0, none⟩, none, 0, none, e⟩) := by
  have hn' : n ≠ 0 := by omega
  cases a1 <;> cases a2 <;> cases a3 <;> cases a4 <;>
    simp_all [sv_vendor_axis_communications_set_attestation_report,
      set_attestation_cert_phase, set_attestation_catch]

/-- Witness for C5: with the session-side certificate-chain `calloc`
failing and the three other allocations succeeding, setting both fields on
a fresh session returns `SV_MEMORY` with every field back to its unset
state. -/
theorem set_attestation_report_alloc_failure_unwinds_witness :
    sv_vendor_axis_communications_set_attestation_report true true true false
      (some ⟨some ⟨none, 0, none⟩, none, 0, none, false⟩) (some [7]) 1 (some [65])
    = (SV_MEMORY, some ⟨some ⟨none, 0, none⟩, none, 0, none, false⟩) :=
  set_attestation_report_alloc_failure_unwinds true true true false [7] [65] 1 0 0 false
    (by simp) (by norm_num)

/-- The return code the spec's error-handling design prescribes for
`sv_vendor_axis_communications_set_attestation_report` when every
allocation succeeds.  This definition follows the spec's words (claim C6,
spec §7), to be compared against the embedding of the source:
`InvalidParameter` for a NULL session, both inputs NULL, or an
attestation/size mismatch; `NotSupported` for a session with no vendor
handle or a field being set that is already set; otherwise `Ok`. -/
def set_attestation_report_spec_code (sv? : Option signed_video_t)
    (attestation : Option (List Nat)) (attestation_size : Nat)
    (certificate_chain : Option (List Nat)) : SignedVideoReturnCode :=
  match sv? with
  | none => SV_INVALID_PARAMETER
  | some sv =>
    if (attestation.isNone ∧ certificate_chain.isNone) ∨
        (attestation.isSome ∧ attestation_size = 0) ∨
        (attestation.isNone ∧ 0 < attestation_size) then SV_INVALID_PARAMETER
    else
      match sv.vendor_handle with
      | none => SV_NOT_SUPPORTED
      | some self =>
        if attestation.isSome ∧ (self.attestation.isSome ∨ sv.attestation.isSome) then
          SV_NOT_SUPPORTED
        else if certificate_chain.isSome ∧
            (self.certificate_chain.isSome ∨ sv.certificate_chain.isSome) then
          SV_NOT_SUPPORTED
        else SV_OK

/-- Claim C6. With every allocation succeeding, the return code of
`sv_vendor_axis_communications_set_attestation_report` is exactly the one
the spec prescribes: `SV_INVALID_PARAMETER` exactly when the session is
NULL, both attestation and certificate chain are NULL, or attestation and
size disagree; `SV_NOT_SUPPORTED` when the session has no vendor handle or
the field being set is already set; `SV_OK` otherwise. -/
theorem set_attestation_report_return_codes (sv? : Option signed_video_t)
    (attestation : Option (List Nat)) (attestation_size : Nat)
    (certificate_chain : Option (List Nat)) :
    (sv_vendor_axis_communications_set_attestation_report true true true true
        sv? attestation attestation_size certificate_chain).1
      = set_attestation_report_spec_code sv? attestation attestation_size
          certificate_chain ∧
    ((sv_vendor_axis_communications_set_attestation_report true true true true
        sv? attestation attestation_size certificate_chain).1 = SV_INVALID_PARAMETER ↔
      sv? = none ∨ (attestation = none ∧ certificate_chain = none) ∨
        (attestation ≠ none ∧ attestation_size = 0) ∨
        (attestation = none ∧ 0 < attestation_size)) := by
  have hmain : (sv_vendor_axis_communications_set_attestation_report true true true true
      sv? attestation attestation_size certificate_chain).1
      = set_attestation_report_spec_code sv? attestation attestation_size
          certificate_chain := by
    rcases sv? with _ | sv
    · rfl
    rcases hh : sv.vendor_handle with _ | self <;>
      rcases attestation with _ | ab <;> rcases certificate_chain with _ | cb <;>
        by_cases hn : attestation_size = 0 <;>
          simp [sv_vendor_axis_communications_set_attestation_report,
            set_attestation_report_spec_code, set_attestation_cert_phase,
            set_attestation_catch, hh, hn] <;>
          split_ifs <;> simp_all
  refine ⟨hmain, ?_⟩
  rw [hmain]
  rcases sv? with _ | sv
  · simp [set_attestation_report_spec_code]
  have hcond : ((attestation.isNone ∧ certificate_chain.isNone) ∨
      (attestation.isSome ∧ attestation_size = 0) ∨
      (attestation.isNone ∧ 0 < attestation_size)) ↔
      ((attestation = none ∧ certificate_chain = none) ∨
        (attestation ≠ none ∧ attestation_size = 0) ∨
        (attestation = none ∧ 0 < attestation_size)) := by
    rcases attestation with _ | ab <;> rcases certificate_chain with _ | cb <;> simp
  simp only [set_attestation_report_spec_code]
  split_ifs with h
  · constructor
    · intro _
      exact Or.inr (hcond.mp h)
    · intro _
      rfl
  · have hr : ¬((attestation = none ∧ certificate_chain = none) ∨
        (attestation ≠ none ∧ attestation_size = 0) ∨
        (attestation = none ∧ 0 < attestation_size)) := fun hx => h (hcond.mpr hx)
    rcases hh : sv.vendor_handle with _ | self
    · simp [hr]
    · dsimp only
      split_ifs <;> simp [hr]

end SignedVideo
